import Mathlib

/-!
Verification of the LifeStory backend (src/main.py, src/schemas.py): a shallow
embedding of the season/episode CRUD handlers over an explicit store state,
with theorems settling the specification claims.

The document store primitives used by the handlers (`update_many`,
`find_one_and_update`, `delete_one`, `find_one` from pymongo, and
`create_document` / `get_documents` from the repository's database module,
whose file is not part of src/) are modelled as list-processing functions
with standard MongoDB semantics: a collection is a list of documents in
insertion order, equality filters select documents, single-document
operations act on the first match.
-/

namespace LifeStory

/-- A calendar date (`datetime.date`); the claims never inspect its fields. -/
structure CalDate where
  year : Nat
  month : Nat
  day : Nat
deriving DecidableEq, Repr

/-- True for the characters accepted in a hexadecimal ObjectId string. -/
def isHexChar (c : Char) : Bool :=
  c.isDigit || (Char.ofNat 97 ≤ c && c ≤ Char.ofNat 102) || (Char.ofNat 65 ≤ c && c ≤ Char.ofNat 70)

/-- A string is a well-formed BSON ObjectId string iff it is 24 hex characters
(`bson.ObjectId(s)` succeeds exactly on these, case-insensitively). -/
def wellFormedOidString (s : String) : Bool :=
  s.length == 24 && s.data.all isHexChar

/-- A MongoDB ObjectId, carried in its canonical (lowercase hex) string form,
which is what `str(oid)` produces in Python. -/
structure ObjectId where
  repr : String
deriving DecidableEq, Repr

/-- Lowercasing of one character as it acts on hex digits (the only
characters a well-formed ObjectId string contains). -/
def lowerHexChar (c : Char) : Char :=
  if 65 ≤ c.toNat && c.toNat ≤ 70 then Char.ofNat (c.toNat + 32) else c

/-- Lowercasing of a hex string: ObjectId normalises its input to the
canonical lowercase form that `str(oid)` later prints. -/
def lowerHexString (s : String) : String :=
  ⟨s.data.map lowerHexChar⟩

/-- `bson.ObjectId(s)`: succeeds iff `s` is 24 hex characters, and normalises
to the canonical lowercase form; raises (here: `none`) otherwise. -/
def parseObjectId (s : String) : Option ObjectId :=
  if wellFormedOidString s then some ⟨lowerHexString s⟩ else none

/-- A stored document of the `season` collection (fields of `SeasonIn` plus
the server-generated `_id`). -/
structure SeasonDoc where
  oid : ObjectId
  title : String
  description : Option String
  start_date : Option CalDate
  end_date : Option CalDate
  is_active : Bool
deriving DecidableEq, Repr

/-- A stored document of the `episode` collection (fields of `EpisodeIn` plus
the server-generated `_id`). -/
structure EpisodeDoc where
  oid : ObjectId
  title : String
  date : CalDate
  rating : Int
  plot_points : List String
  season_id : Option String
deriving DecidableEq, Repr

/-- The database state: the two collections `season` and `episode`. -/
structure Store where
  seasons : List SeasonDoc
  episodes : List EpisodeDoc
deriving DecidableEq, Repr

/-- A validated season payload (pydantic model `SeasonIn` of main.py). -/
structure SeasonIn where
  title : String
  description : Option String
  start_date : Option CalDate
  end_date : Option CalDate
  is_active : Bool
deriving DecidableEq, Repr

/-- A validated episode payload (pydantic model `EpisodeIn` of main.py). -/
structure EpisodeIn where
  title : String
  date : CalDate
  rating : Int
  plot_points : List String
  season_id : Option String
deriving DecidableEq, Repr

/-- A raw season request body before pydantic validation: each field either
present (`some`) or absent/null (`none`). -/
structure SeasonPayload where
  title : Option String
  description : Option String
  start_date : Option CalDate
  end_date : Option CalDate
  is_active : Option Bool
deriving DecidableEq, Repr

/-- Pydantic validation of `SeasonIn` (main.py lines 36-41): `title` is
required (`Field(...)`) with no further constraint; `description`,
`start_date`, `end_date` default to `None`; `is_active` defaults to `True`. -/
def validateSeasonIn (p : SeasonPayload) : Option SeasonIn :=
  match p.title with
  | none => none
  | some t =>
      some { title := t, description := p.description, start_date := p.start_date,
             end_date := p.end_date, is_active := p.is_active.getD true }

/-- A raw episode request body before pydantic validation. -/
structure EpisodePayload where
  title : Option String
  date : Option CalDate
  rating : Option Int
  plot_points : Option (List String)
  season_id : Option String
deriving DecidableEq, Repr

/-- Pydantic validation of `EpisodeIn` (main.py lines 46-51): `title`, `date`
and `rating` are required, `rating` constrained by `ge=1, le=10`;
`plot_points` defaults to the empty list; `season_id` defaults to `None`. -/
def validateEpisodeIn (p : EpisodePayload) : Option EpisodeIn :=
  match p.title, p.date, p.rating with
  | some t, some d, some r =>
      if 1 ≤ r && r ≤ 10 then
        some { title := t, date := d, rating := r,
               plot_points := p.plot_points.getD [], season_id := p.season_id }
      else none
  | _, _, _ => none

/-- Outcome of a handler: a 200 payload or an `HTTPException(status, detail)`. -/
inductive HandlerResult (α : Type) where
  | ok (value : α)
  | error (status : Nat) (detail : String)
deriving DecidableEq, Repr

/-- Whether a handler outcome is a success. -/
def HandlerResult.isOk {α : Type} : HandlerResult α → Bool
  | .ok _ => true
  | .error _ _ => false

/-- Mongo `update_many(filter, set)`: applies the set to every matching
document, in place. -/
def updateMany {α : Type} (fits : α → Bool) (set : α → α) (docs : List α) : List α :=
  docs.map fun d => if fits d then set d else d

/-- Mongo `find_one_and_update(filter, set, return_document=True)`: updates
the first matching document and returns it (post-update); `none` on a miss. -/
def findOneAndUpdate {α : Type} (fits : α → Bool) (set : α → α) :
    List α → Option α × List α
  | [] => (none, [])
  | d :: rest =>
      if fits d then (some (set d), set d :: rest)
      else
        let r := findOneAndUpdate fits set rest
        (r.1, d :: r.2)

/-- Mongo `delete_one(filter)`: removes the first matching document and
reports `deleted_count` (1 on a hit, 0 on a miss). -/
def deleteOne {α : Type} (fits : α → Bool) : List α → Nat × List α
  | [] => (0, [])
  | d :: rest =>
      if fits d then (1, rest)
      else
        let r := deleteOne fits rest
        (r.1, d :: r.2)

/-- Mongo `find_one(filter)`: the first matching document, if any. -/
def findOne {α : Type} (fits : α → Bool) (docs : List α) : Option α :=
  docs.find? fits

/-- Modelled from the spec: `database.get_documents(collection, filter)`
(§4.1 `findMany`) — all documents matching an equality filter, the empty
filter selecting every document.  The repository file database.py is not
under src/; only its import in main.py is. -/
def get_documents {α : Type} (filt : α → Bool) (docs : List α) : List α :=
  docs.filter filt

/-- Modelled from the spec: `database.create_document(collection, data)`
(§4.1 `insert`) — inserts one document with a server-generated identifier
and returns that identifier.  The fresh identifier is passed explicitly.
The repository file database.py is not under src/. -/
def create_document {α : Type} (doc : α) (docs : List α) : List α :=
  docs ++ [doc]

/-- The season document built from a validated payload and a generated id. -/
def mkSeasonDoc (newOid : ObjectId) (p : SeasonIn) : SeasonDoc :=
  { oid := newOid, title := p.title, description := p.description,
    start_date := p.start_date, end_date := p.end_date, is_active := p.is_active }

/-- The episode document built from a validated payload and a generated id. -/
def mkEpisodeDoc (newOid : ObjectId) (p : EpisodeIn) : EpisodeDoc :=
  { oid := newOid, title := p.title, date := p.date, rating := p.rating,
    plot_points := p.plot_points, season_id := p.season_id }

/-- `POST /api/seasons` (main.py `create_season`, lines 93-101): if the
payload is active, first set every season inactive via `update_many({})`;
then insert; then read the created document back by its id. -/
def create_season (payload : SeasonIn) (newOid : ObjectId) (st : Store) :
    HandlerResult (Option SeasonDoc) × Store :=
  let seasons1 :=
    if payload.is_active then
      updateMany (fun _ => true) (fun s => { s with is_active := false }) st.seasons
    else st.seasons
  let seasons2 := create_document (mkSeasonDoc newOid payload) seasons1
  (.ok (findOne (fun s => s.oid == newOid) seasons2), { st with seasons := seasons2 })

/-- The `$set` of all `SeasonIn` fields used by `update_season`. -/
def applySeasonSet (p : SeasonIn) (s : SeasonDoc) : SeasonDoc :=
  { s with title := p.title, description := p.description, start_date := p.start_date,
           end_date := p.end_date, is_active := p.is_active }

/-- `PATCH /api/seasons/{season_id}` (main.py `update_season`, lines 103-115):
400 on a malformed id before any store access; otherwise deactivate all
seasons when the payload is active, then `find_one_and_update` by id,
404 when that misses. -/
def update_season (season_id : String) (payload : SeasonIn) (st : Store) :
    HandlerResult SeasonDoc × Store :=
  match parseObjectId season_id with
  | none => (.error 400 "Invalid season id", st)
  | some oid =>
      let seasons1 :=
        if payload.is_active then
          updateMany (fun _ => true) (fun s => { s with is_active := false }) st.seasons
        else st.seasons
      let r := findOneAndUpdate (fun s => s.oid == oid) (applySeasonSet payload) seasons1
      match r.1 with
      | none => (.error 404 "Season not found", { st with seasons := r.2 })
      | some doc => (.ok doc, { st with seasons := r.2 })

/-- `DELETE /api/seasons/{season_id}` (main.py `delete_season`, lines
117-128): 400 on a malformed id; `delete_one` by id, 404 when
`deleted_count == 0`; on a hit, set `season_id` to null on every episode
whose `season_id` equals the raw path string. -/
def delete_season (season_id : String) (st : Store) :
    HandlerResult String × Store :=
  match parseObjectId season_id with
  | none => (.error 400 "Invalid season id", st)
  | some oid =>
      let r := deleteOne (fun s => s.oid == oid) st.seasons
      if r.1 == 0 then
        (.error 404 "Season not found", { st with seasons := r.2 })
      else
        let episodes2 :=
          updateMany (fun e => e.season_id == some season_id)
            (fun e => { e with season_id := none }) st.episodes
        (.ok "ok", { seasons := r.2, episodes := episodes2 })

/-- `GET /api/episodes` (main.py `list_episodes`, lines 132-140): the filter
is `season_id = null` when `unsorted` is set, else `season_id = sid` when
given, else empty; `get_documents` applies it. -/
def list_episodes (season_id : Option String) (unsorted : Bool) (st : Store) :
    List EpisodeDoc :=
  if unsorted then
    get_documents (fun e => e.season_id == none) st.episodes
  else
    match season_id with
    | some sid => get_documents (fun e => e.season_id == some sid) st.episodes
    | none => get_documents (fun _ => true) st.episodes

/-- `POST /api/episodes` (main.py `create_episode`, lines 142-147). -/
def create_episode (payload : EpisodeIn) (newOid : ObjectId) (st : Store) :
    HandlerResult (Option EpisodeDoc) × Store :=
  let episodes2 := create_document (mkEpisodeDoc newOid payload) st.episodes
  (.ok (findOne (fun e => e.oid == newOid) episodes2), { st with episodes := episodes2 })

/-- The `$set` of all `EpisodeIn` fields used by `update_episode`. -/
def applyEpisodeSet (p : EpisodeIn) (e : EpisodeDoc) : EpisodeDoc :=
  { e with title := p.title, date := p.date, rating := p.rating,
           plot_points := p.plot_points, season_id := p.season_id }

/-- `PATCH /api/episodes/{episode_id}` (main.py `update_episode`, lines
149-159). -/
def update_episode (episode_id : String) (payload : EpisodeIn) (st : Store) :
    HandlerResult EpisodeDoc × Store :=
  match parseObjectId episode_id with
  | none => (.error 400 "Invalid episode id", st)
  | some oid =>
      let r := findOneAndUpdate (fun e => e.oid == oid) (applyEpisodeSet payload) st.episodes
      match r.1 with
      | none => (.error 404 "Episode not found", { st with episodes := r.2 })
      | some doc => (.ok doc, { st with episodes := r.2 })

/-- `DELETE /api/episodes/{episode_id}` (main.py `delete_episode`, lines
161-170): 400 on a malformed id; `delete_one` by id, 404 on a miss. -/
def delete_episode (episode_id : String) (st : Store) :
    HandlerResult String × Store :=
  match parseObjectId episode_id with
  | none => (.error 400 "Invalid episode id", st)
  | some oid =>
      let r := deleteOne (fun e => e.oid == oid) st.episodes
      if r.1 == 0 then
        (.error 404 "Episode not found", { st with episodes := r.2 })
      else
        (.ok "ok", { st with episodes := r.2 })

/-- The full `POST /api/seasons` endpoint including framework validation:
pydantic rejects the body with a 422 before the handler body runs. -/
def post_season (p : SeasonPayload) (newOid : ObjectId) (st : Store) :
    HandlerResult (Option SeasonDoc) × Store :=
  match validateSeasonIn p with
  | none => (.error 422 "validation error", st)
  | some payload => create_season payload newOid st

/-- The full `PATCH /api/seasons/{id}` endpoint including framework
validation of the body. -/
def patch_season (season_id : String) (p : SeasonPayload) (st : Store) :
    HandlerResult SeasonDoc × Store :=
  match validateSeasonIn p with
  | none => (.error 422 "validation error", st)
  | some payload => update_season season_id payload st

/-- The full `POST /api/episodes` endpoint including framework validation. -/
def post_episode (p : EpisodePayload) (newOid : ObjectId) (st : Store) :
    HandlerResult (Option EpisodeDoc) × Store :=
  match validateEpisodeIn p with
  | none => (.error 422 "validation error", st)
  | some payload => create_episode payload newOid st

/-- The full `PATCH /api/episodes/{id}` endpoint including framework
validation of the body. -/
def patch_episode (episode_id : String) (p : EpisodePayload) (st : Store) :
    HandlerResult EpisodeDoc × Store :=
  match validateEpisodeIn p with
  | none => (.error 422 "validation error", st)
  | some payload => update_episode episode_id payload st

/-- The state of the database handle as `GET /test` can observe it: `db` is
`None` (not configured), or connected and `list_collection_names()` succeeds,
or connected but `list_collection_names()` raises with some message. -/
inductive DbState where
  | notConfigured
  | connected (name : String) (collections : List String)
  | listCollectionsRaises (name : String) (errMsg : String)
deriving DecidableEq, Repr

/-- The diagnostic payload assembled by `test_database` (main.py lines 62-84). -/
structure TestResponse where
  backend : String
  database : String
  database_url : String
  database_name : String
  connection_status : String
  collections : List String
deriving DecidableEq, Repr

/-- Python string slicing `s[:60]`: the first 60 characters of `s`. -/
def pyTake60 (s : String) : String :=
  ⟨s.data.take 60⟩

/-- `GET /test` (main.py `test_database`, lines 62-84): builds the default
"not available" payload, then overwrites fields according to the database
state; every exception from the database is caught, so the handler always
returns 200 with the payload as data. -/
def test_database (s : DbState) : Nat × TestResponse :=
  match s with
  | .notConfigured =>
      (200, { backend := "✅ Running", database := "❌ Not Available",
              database_url := "❌ Not Set", database_name := "❌ Not Set",
              connection_status := "Not Connected", collections := [] })
  | .connected name cols =>
      (200, { backend := "✅ Running", database := "✅ Connected & Working",
              database_url := "✅ Set", database_name := name,
              connection_status := "Connected", collections := cols })
  | .listCollectionsRaises name msg =>
      (200, { backend := "✅ Running",
              database := "⚠️ Connected but Error: " ++ pyTake60 msg,
              database_url := "✅ Set", database_name := name,
              connection_status := "Connected", collections := [] })

/-! ## Helper lemmas about the store primitives -/

/-- `find_one_and_update` on a collection with no matching document returns
`None` and leaves the collection unchanged. -/
theorem findOneAndUpdate_no_match {α : Type} (fits : α → Bool) (set : α → α)
    (l : List α) (h : ∀ x ∈ l, fits x = false) :
    findOneAndUpdate fits set l = (none, l) := by
  induction l with
  | nil => rfl
  | cons d rest ih =>
      have hd : fits d = false := h d (List.mem_cons_self d rest)
      have ht : ∀ x ∈ rest, fits x = false := fun x hx => h x (List.mem_cons_of_mem d hx)
      simp [findOneAndUpdate, hd, ih ht]

/-- `find_one_and_update` on a collection containing a matching document
updates exactly the first match: the collection splits as `l1 ++ d :: l2`
with no match in `l1`, the result document is `set d`, and the new
collection is `l1 ++ set d :: l2`. -/
theorem findOneAndUpdate_first_match {α : Type} (fits : α → Bool) (set : α → α)
    (l : List α) (h : ∃ x ∈ l, fits x = true) :
    ∃ l1 d l2, l = l1 ++ d :: l2 ∧ fits d = true ∧ (∀ x ∈ l1, fits x = false) ∧
      findOneAndUpdate fits set l = (some (set d), l1 ++ set d :: l2) := by
  induction l with
  | nil => simp at h
  | cons a rest ih =>
      by_cases ha : fits a = true
      · exact ⟨[], a, rest, by simp, ha, by simp, by simp [findOneAndUpdate, ha]⟩
      · have ha' : fits a = false := by simpa using ha
        have hrest : ∃ x ∈ rest, fits x = true := by
          rcases h with ⟨x, hx, hfx⟩
          rcases List.mem_cons.mp hx with rfl | hx'
          · exact absurd hfx ha
          · exact ⟨x, hx', hfx⟩
        rcases ih hrest with ⟨l1, d, l2, hsplit, hd, hl1, hres⟩
        refine ⟨a :: l1, d, l2, by simp [hsplit], hd, ?_, ?_⟩
        · intro x hx
          rcases List.mem_cons.mp hx with rfl | hx'
          · exact ha'
          · exact hl1 x hx'
        · simp [findOneAndUpdate, ha', hres]

/-- `delete_one` on a collection with no matching document reports
`deleted_count = 0` and leaves the collection unchanged. -/
theorem deleteOne_no_match {α : Type} (fits : α → Bool)
    (l : List α) (h : ∀ x ∈ l, fits x = false) :
    deleteOne fits l = (0, l) := by
  induction l with
  | nil => rfl
  | cons d rest ih =>
      have hd : fits d = false := h d (List.mem_cons_self d rest)
      have ht : ∀ x ∈ rest, fits x = false := fun x hx => h x (List.mem_cons_of_mem d hx)
      simp [deleteOne, hd, ih ht]

/-- `delete_one` on a collection containing a matching document removes
exactly the first match and reports `deleted_count = 1`. -/
theorem deleteOne_first_match {α : Type} (fits : α → Bool)
    (l : List α) (h : ∃ x ∈ l, fits x = true) :
    ∃ l1 d l2, l = l1 ++ d :: l2 ∧ fits d = true ∧ (∀ x ∈ l1, fits x = false) ∧
      deleteOne fits l = (1, l1 ++ l2) := by
  induction l with
  | nil => simp at h
  | cons a rest ih =>
      by_cases ha : fits a = true
      · exact ⟨[], a, rest, by simp, ha, by simp, by simp [deleteOne, ha]⟩
      · have ha' : fits a = false := by simpa using ha
        have hrest : ∃ x ∈ rest, fits x = true := by
          rcases h with ⟨x, hx, hfx⟩
          rcases List.mem_cons.mp hx with rfl | hx'
          · exact absurd hfx ha
          · exact ⟨x, hx', hfx⟩
        rcases ih hrest with ⟨l1, d, l2, hsplit, hd, hl1, hres⟩
        refine ⟨a :: l1, d, l2, by simp [hsplit], hd, ?_, ?_⟩
        · intro x hx
          rcases List.mem_cons.mp hx with rfl | hx'
          · exact ha'
          · exact hl1 x hx'
        · simp [deleteOne, ha', hres]

/-- Deactivating every season (the `update_many({}, is_active := False)` of
`create_season`/`update_season`) leaves every season of the result with
`is_active = false`. -/
theorem deactivateAll_all_inactive (l : List SeasonDoc) :
    ∀ s ∈ updateMany (fun _ => true) (fun s => { s with is_active := false }) l,
      s.is_active = false := by
  intro s hs
  rcases List.mem_map.mp hs with ⟨t, _, rfl⟩
  rfl

/-- Deactivating every season preserves each season's `_id` positionally. -/
theorem deactivateAll_oids (l : List SeasonDoc) :
    (updateMany (fun _ => true) (fun s => { s with is_active := false }) l).map
        (fun s => s.oid) = l.map fun s => s.oid := by
  induction l with
  | nil => rfl
  | cons a rest ih => simp [updateMany] at ih ⊢

/-! ## Claims -/

/-- C3: `GET /api/episodes` with `unsorted=true` returns exactly the episodes
whose `season_id` is null, whatever the `season_id` query parameter is
(`unsorted` takes precedence); with `unsorted` false/absent and `season_id`
supplied it returns exactly the episodes with that `season_id`; with neither
parameter it returns all episodes. -/
theorem C3_list_episodes_filters (st : Store) (sid : String) :
    (∀ q : Option String,
        list_episodes q true st = st.episodes.filter fun e => e.season_id == none) ∧
    list_episodes (some sid) false st =
      (st.episodes.filter fun e => e.season_id == some sid) ∧
    list_episodes none false st = st.episodes := by
  refine ⟨fun q => rfl, rfl, ?_⟩
  simp [list_episodes, get_documents]

/-- C8: the `GET /test` diagnostic handler never fails: it returns status 200
for every database state, and when `list_collection_names()` raises it
reports the problem as data, with the caught message truncated to at most
60 characters. -/
theorem C8_test_database_never_fails (s s2 : DbState) (name msg : String)
    (h : s2 = DbState.listCollectionsRaises name msg) :
    (test_database s).1 = 200 ∧
    (test_database s2).2.database = "⚠️ Connected but Error: " ++ pyTake60 msg ∧
    (pyTake60 msg).length ≤ 60 := by
  subst h
  refine ⟨?_, rfl, ?_⟩
  · cases s <;> rfl
  · exact List.length_take_le 60 msg.data

/-- Witness for C8 at concrete database states. -/
theorem C8_witness :
    (test_database DbState.notConfigured).1 = 200 ∧
    (test_database (DbState.listCollectionsRaises "lifestory" "timeout")).2.database =
      "⚠️ Connected but Error: " ++ pyTake60 "timeout" ∧
    (pyTake60 "timeout").length ≤ 60 :=
  C8_test_database_never_fails DbState.notConfigured _ "lifestory" "timeout" rfl

/-- C5: episode validation accepts `rating` iff it is an integer in [1, 10];
a rejected rating yields a 422 before any store operation, leaving the store
unchanged. -/
theorem C5_rating_bounds (t : String) (d : CalDate) (r : Int)
    (pp : Option (List String)) (ps : Option String) (newOid : ObjectId)
    (eid : String) (st : Store) :
    ((validateEpisodeIn ⟨some t, some d, some r, pp, ps⟩).isSome ↔ (1 ≤ r ∧ r ≤ 10)) ∧
    (¬(1 ≤ r ∧ r ≤ 10) →
      post_episode ⟨some t, some d, some r, pp, ps⟩ newOid st =
        (.error 422 "validation error", st) ∧
      patch_episode eid ⟨some t, some d, some r, pp, ps⟩ st =
        (.error 422 "validation error", st)) := by
  constructor
  · by_cases h : 1 ≤ r ∧ r ≤ 10
    · simp [validateEpisodeIn, h.1, h.2, h]
    · simp only [validateEpisodeIn]
      rw [if_neg]
      · simpa using h
      · simpa using fun h1 h2 => h ⟨h1, h2⟩
  · intro h
    have hv : validateEpisodeIn ⟨some t, some d, some r, pp, ps⟩ = none := by
      simp only [validateEpisodeIn]
      rw [if_neg]
      simpa using fun h1 h2 => h ⟨h1, h2⟩
    exact ⟨by simp [post_episode, hv], by simp [patch_episode, hv]⟩

/-- Witness for C5: rating 0 is rejected with a 422 by both create and
update, and the store is untouched; ratings 1 and 10 pass validation. -/
theorem C5_witness :
    (post_episode ⟨some "Day 1", some ⟨2024, 1, 1⟩, some 0, none, none⟩
        ⟨"0123456789abcdef01234567"⟩ ⟨[], []⟩ =
      (.error 422 "validation error", ⟨[], []⟩) ∧
     patch_episode "0123456789abcdef01234567"
        ⟨some "Day 1", some ⟨2024, 1, 1⟩, some 0, none, none⟩ ⟨[], []⟩ =
      (.error 422 "validation error", ⟨[], []⟩)) ∧
    (validateEpisodeIn ⟨some "Day 1", some ⟨2024, 1, 1⟩, some 1, none, none⟩).isSome = true ∧
    (validateEpisodeIn ⟨some "Day 1", some ⟨2024, 1, 1⟩, some 10, none, none⟩).isSome = true := by
  refine ⟨(C5_rating_bounds "Day 1" ⟨2024, 1, 1⟩ 0 none none
      ⟨"0123456789abcdef01234567"⟩ "0123456789abcdef01234567" ⟨[], []⟩).2 (by decide),
    ?_, ?_⟩
  · exact (C5_rating_bounds "Day 1" ⟨2024, 1, 1⟩ 1 none none
      ⟨"0123456789abcdef01234567"⟩ "0123456789abcdef01234567" ⟨[], []⟩).1.mpr
      (by decide)
  · exact (C5_rating_bounds "Day 1" ⟨2024, 1, 1⟩ 10 none none
      ⟨"0123456789abcdef01234567"⟩ "0123456789abcdef01234567" ⟨[], []⟩).1.mpr
      (by decide)

/-- C7 as stated is false on the code: `SeasonIn.title` is `str = Field(...)`
with no non-emptiness constraint, so a season payload whose title is the
empty string passes validation and `POST /api/seasons` inserts a document. -/
theorem C7_counterexample :
    (validateSeasonIn ⟨some "", none, none, none, some false⟩).isSome = true ∧
    (post_season ⟨some "", none, none, none, some false⟩
        ⟨"0123456789abcdef01234567"⟩ ⟨[], []⟩).2.seasons ≠ [] := by
  constructor
  · rfl
  · decide

/-- C7 amended: season validation only requires `title` to be present; a
payload with no title is rejected with a 422 by both `POST /api/seasons` and
`PATCH /api/seasons/{id}`, and the store is left unchanged. -/
theorem C7_amended_title_required (p : SeasonPayload) (newOid : ObjectId)
    (sid : String) (st : Store) (h : p.title = none) :
    validateSeasonIn p = none ∧
    post_season p newOid st = (.error 422 "validation error", st) ∧
    patch_season sid p st = (.error 422 "validation error", st) := by
  have hv : validateSeasonIn p = none := by
    simp [validateSeasonIn, h]
  exact ⟨hv, by simp [post_season, hv], by simp [patch_season, hv]⟩

/-- Witness for the amended C7 at a concrete title-less payload. -/
theorem C7_amended_witness :
    validateSeasonIn ⟨none, some "desc", none, none, some true⟩ = none ∧
    post_season ⟨none, some "desc", none, none, some true⟩
        ⟨"0123456789abcdef01234567"⟩ ⟨[], []⟩ =
      (.error 422 "validation error", ⟨[], []⟩) ∧
    patch_season "0123456789abcdef01234567" ⟨none, some "desc", none, none, some true⟩
        ⟨[], []⟩ =
      (.error 422 "validation error", ⟨[], []⟩) :=
  C7_amended_title_required ⟨none, some "desc", none, none, some true⟩
    ⟨"0123456789abcdef01234567"⟩ "0123456789abcdef01234567" ⟨[], []⟩ rfl

/-- Elements of the deactivated season list come from the original list with
only `is_active` flipped to false; in particular ids are preserved. -/
theorem mem_deactivateAll {l : List SeasonDoc} {s : SeasonDoc}
    (hs : s ∈ updateMany (fun _ => true) (fun s => { s with is_active := false }) l) :
    ∃ t ∈ l, s = { t with is_active := false } := by
  rcases List.mem_map.mp hs with ⟨t, ht, rfl⟩
  exact ⟨t, ht, rfl⟩

/-- C4: every Season or Episode Update or Delete with a malformed path
identifier fails with 400 before any store access (the store is unchanged);
with a well-formed identifier matching no stored document each fails with
404 after the store lookup misses. -/
theorem C4_identifier_errors (st : Store) (badId goodId : String) (p : SeasonIn)
    (pe : EpisodeIn) (oid : ObjectId)
    (hbad : parseObjectId badId = none)
    (hgood : parseObjectId goodId = some oid)
    (hmissS : ∀ s ∈ st.seasons, s.oid ≠ oid)
    (hmissE : ∀ e ∈ st.episodes, e.oid ≠ oid) :
    update_season badId p st = (.error 400 "Invalid season id", st) ∧
    delete_season badId st = (.error 400 "Invalid season id", st) ∧
    update_episode badId pe st = (.error 400 "Invalid episode id", st) ∧
    delete_episode badId st = (.error 400 "Invalid episode id", st) ∧
    (update_season goodId p st).1 = .error 404 "Season not found" ∧
    (delete_season goodId st).1 = .error 404 "Season not found" ∧
    (update_episode goodId pe st).1 = .error 404 "Episode not found" ∧
    (delete_episode goodId st).1 = .error 404 "Episode not found" := by
  have hdelS : deleteOne (fun s : SeasonDoc => s.oid == oid) st.seasons =
      (0, st.seasons) :=
    deleteOne_no_match _ st.seasons fun x hx => by simpa using hmissS x hx
  have hdelE : deleteOne (fun e : EpisodeDoc => e.oid == oid) st.episodes =
      (0, st.episodes) :=
    deleteOne_no_match _ st.episodes fun x hx => by simpa using hmissE x hx
  have hupdE : findOneAndUpdate (fun e : EpisodeDoc => e.oid == oid)
      (applyEpisodeSet pe) st.episodes = (none, st.episodes) :=
    findOneAndUpdate_no_match _ _ st.episodes fun x hx => by
      simpa using hmissE x hx
  refine ⟨by simp [update_season, hbad], by simp [delete_season, hbad],
    by simp [update_episode, hbad], by simp [delete_episode, hbad],
    ?_, by simp [delete_season, hgood, hdelS],
    by simp [update_episode, hgood, hupdE],
    by simp [delete_episode, hgood, hdelE]⟩
  have hnone :
      ∀ l : List SeasonDoc, (∀ s ∈ l, s.oid ≠ oid) →
        findOneAndUpdate (fun s => s.oid == oid) (applySeasonSet p) l = (none, l) := by
    intro l hl
    exact findOneAndUpdate_no_match _ _ l fun x hx => by
      simpa using hl x hx
  by_cases hact : p.is_active = true
  · have hl : ∀ s ∈ updateMany (fun _ => true)
        (fun s => { s with is_active := false }) st.seasons, s.oid ≠ oid := by
      intro s hs
      rcases mem_deactivateAll hs with ⟨t, ht, rfl⟩
      exact hmissS t ht
    simp [update_season, hgood, hact, hnone _ hl]
  · have hact' : p.is_active = false := by simpa using hact
    simp [update_season, hgood, hact', hnone _ hmissS]

/-- Witness for C4 on a concrete store with one season and one episode,
exercising all four handlers on both error paths. -/
theorem C4_witness :
    update_season "not-an-oid"
        ⟨"t", none, none, none, true⟩
        ⟨[⟨⟨"aaaaaaaaaaaaaaaaaaaaaaaa"⟩, "s", none, none, none, true⟩],
         [⟨⟨"bbbbbbbbbbbbbbbbbbbbbbbb"⟩, "e", ⟨2024, 1, 1⟩, 5, [], none⟩]⟩ =
      (.error 400 "Invalid season id",
       ⟨[⟨⟨"aaaaaaaaaaaaaaaaaaaaaaaa"⟩, "s", none, none, none, true⟩],
        [⟨⟨"bbbbbbbbbbbbbbbbbbbbbbbb"⟩, "e", ⟨2024, 1, 1⟩, 5, [], none⟩]⟩) ∧
    delete_season "not-an-oid"
        ⟨[⟨⟨"aaaaaaaaaaaaaaaaaaaaaaaa"⟩, "s", none, none, none, true⟩],
         [⟨⟨"bbbbbbbbbbbbbbbbbbbbbbbb"⟩, "e", ⟨2024, 1, 1⟩, 5, [], none⟩]⟩ =
      (.error 400 "Invalid season id",
       ⟨[⟨⟨"aaaaaaaaaaaaaaaaaaaaaaaa"⟩, "s", none, none, none, true⟩],
        [⟨⟨"bbbbbbbbbbbbbbbbbbbbbbbb"⟩, "e", ⟨2024, 1, 1⟩, 5, [], none⟩]⟩) ∧
    update_episode "not-an-oid"
        ⟨"e", ⟨2024, 1, 1⟩, 5, [], none⟩
        ⟨[⟨⟨"aaaaaaaaaaaaaaaaaaaaaaaa"⟩, "s", none, none, none, true⟩],
         [⟨⟨"bbbbbbbbbbbbbbbbbbbbbbbb"⟩, "e", ⟨2024, 1, 1⟩, 5, [], none⟩]⟩ =
      (.error 400 "Invalid episode id",
       ⟨[⟨⟨"aaaaaaaaaaaaaaaaaaaaaaaa"⟩, "s", none, none, none, true⟩],
        [⟨⟨"bbbbbbbbbbbbbbbbbbbbbbbb"⟩, "e", ⟨2024, 1, 1⟩, 5, [], none⟩]⟩) ∧
    (update_season "0123456789abcdef01234567"
        ⟨"t", none, none, none, true⟩
        ⟨[⟨⟨"aaaaaaaaaaaaaaaaaaaaaaaa"⟩, "s", none, none, none, true⟩],
         [⟨⟨"bbbbbbbbbbbbbbbbbbbbbbbb"⟩, "e", ⟨2024, 1, 1⟩, 5, [], none⟩]⟩).1 =
      .error 404 "Season not found" ∧
    (delete_season "0123456789abcdef01234567"
        ⟨[⟨⟨"aaaaaaaaaaaaaaaaaaaaaaaa"⟩, "s", none, none, none, true⟩],
         [⟨⟨"bbbbbbbbbbbbbbbbbbbbbbbb"⟩, "e", ⟨2024, 1, 1⟩, 5, [], none⟩]⟩).1 =
      .error 404 "Season not found" ∧
    (update_episode "0123456789abcdef01234567"
        ⟨"e", ⟨2024, 1, 1⟩, 5, [], none⟩
        ⟨[⟨⟨"aaaaaaaaaaaaaaaaaaaaaaaa"⟩, "s", none, none, none, true⟩],
         [⟨⟨"bbbbbbbbbbbbbbbbbbbbbbbb"⟩, "e", ⟨2024, 1, 1⟩, 5, [], none⟩]⟩).1 =
      .error 404 "Episode not found" ∧
    (delete_episode "0123456789abcdef01234567"
        ⟨[⟨⟨"aaaaaaaaaaaaaaaaaaaaaaaa"⟩, "s", none, none, none, true⟩],
         [⟨⟨"bbbbbbbbbbbbbbbbbbbbbbbb"⟩, "e", ⟨2024, 1, 1⟩, 5, [], none⟩]⟩).1 =
      .error 404 "Episode not found" := by
  have h := C4_identifier_errors
    ⟨[⟨⟨"aaaaaaaaaaaaaaaaaaaaaaaa"⟩, "s", none, none, none, true⟩],
     [⟨⟨"bbbbbbbbbbbbbbbbbbbbbbbb"⟩, "e", ⟨2024, 1, 1⟩, 5, [], none⟩]⟩
    "not-an-oid" "0123456789abcdef01234567" ⟨"t", none, none, none, true⟩
    ⟨"e", ⟨2024, 1, 1⟩, 5, [], none⟩
    ⟨"0123456789abcdef01234567"⟩ (by decide) (by decide) (by decide) (by decide)
  exact ⟨h.1, h.2.1, h.2.2.1, h.2.2.2.2.1, h.2.2.2.2.2.1, h.2.2.2.2.2.2.1,
    h.2.2.2.2.2.2.2⟩

/-- C10: Season Delete and Episode Delete are atomic on their 404 path: a
well-formed identifier matching no document yields 404 with both collections
completely unchanged (the episode-orphaning update of Season Delete does not
run). -/
theorem C10_delete_miss_atomic (st : Store) (sid : String) (oid : ObjectId)
    (hparse : parseObjectId sid = some oid)
    (hmissS : ∀ s ∈ st.seasons, s.oid ≠ oid)
    (hmissE : ∀ e ∈ st.episodes, e.oid ≠ oid) :
    delete_season sid st = (.error 404 "Season not found", st) ∧
    delete_episode sid st = (.error 404 "Episode not found", st) := by
  have hds : deleteOne (fun s : SeasonDoc => s.oid == oid) st.seasons = (0, st.seasons) :=
    deleteOne_no_match _ st.seasons fun x hx => by simpa using hmissS x hx
  have hde : deleteOne (fun e : EpisodeDoc => e.oid == oid) st.episodes = (0, st.episodes) :=
    deleteOne_no_match _ st.episodes fun x hx => by simpa using hmissE x hx
  exact ⟨by simp [delete_season, hparse, hds], by simp [delete_episode, hparse, hde]⟩

/-- Witness for C10 on a concrete nonempty store. -/
theorem C10_witness :
    delete_season "0123456789abcdef01234567"
        ⟨[⟨⟨"aaaaaaaaaaaaaaaaaaaaaaaa"⟩, "s", none, none, none, true⟩],
         [⟨⟨"bbbbbbbbbbbbbbbbbbbbbbbb"⟩, "e", ⟨2024, 1, 1⟩, 5, [],
           some "aaaaaaaaaaaaaaaaaaaaaaaa"⟩]⟩ =
      (.error 404 "Season not found",
       ⟨[⟨⟨"aaaaaaaaaaaaaaaaaaaaaaaa"⟩, "s", none, none, none, true⟩],
        [⟨⟨"bbbbbbbbbbbbbbbbbbbbbbbb"⟩, "e", ⟨2024, 1, 1⟩, 5, [],
          some "aaaaaaaaaaaaaaaaaaaaaaaa"⟩]⟩) :=
  (C10_delete_miss_atomic
    ⟨[⟨⟨"aaaaaaaaaaaaaaaaaaaaaaaa"⟩, "s", none, none, none, true⟩],
     [⟨⟨"bbbbbbbbbbbbbbbbbbbbbbbb"⟩, "e", ⟨2024, 1, 1⟩, 5, [],
       some "aaaaaaaaaaaaaaaaaaaaaaaa"⟩]⟩
    "0123456789abcdef01234567" ⟨"0123456789abcdef01234567"⟩
    (by decide) (by decide) (by decide)).1

/-- C9: Season Update is not atomic on its 404 path: with a well-formed
identifier matching no season and an active payload, the handler returns 404
but has already deactivated every stored season (the bulk `update_many` runs
before the existence check). -/
theorem C9_update_miss_deactivates (st : Store) (sid : String) (oid : ObjectId)
    (p : SeasonIn)
    (hparse : parseObjectId sid = some oid)
    (hmiss : ∀ s ∈ st.seasons, s.oid ≠ oid)
    (hactive : ∃ s ∈ st.seasons, s.is_active = true)
    (hp : p.is_active = true) :
    (update_season sid p st).1 = .error 404 "Season not found" ∧
    (update_season sid p st).2.seasons =
      updateMany (fun _ => true) (fun s => { s with is_active := false })
        st.seasons ∧
    ∀ s ∈ (update_season sid p st).2.seasons, s.is_active = false := by
  have hl : ∀ s ∈ updateMany (fun _ => true)
      (fun s => { s with is_active := false }) st.seasons, s.oid ≠ oid := by
    intro s hs
    rcases mem_deactivateAll hs with ⟨t, ht, rfl⟩
    exact hmiss t ht
  have hnone :
      findOneAndUpdate (fun s => s.oid == oid) (applySeasonSet p)
        (updateMany (fun _ => true) (fun s => { s with is_active := false })
          st.seasons) =
      (none, updateMany (fun _ => true) (fun s => { s with is_active := false })
        st.seasons) :=
    findOneAndUpdate_no_match _ _ _ fun x hx => by simpa using hl x hx
  refine ⟨by simp [update_season, hparse, hp, hnone], ?_, ?_⟩
  · simp [update_season, hparse, hp, hnone]
  · intro s hs
    have : (update_season sid p st).2.seasons =
        updateMany (fun _ => true) (fun s => { s with is_active := false })
          st.seasons := by
      simp [update_season, hparse, hp, hnone]
    rw [this] at hs
    exact deactivateAll_all_inactive st.seasons s hs

/-- Witness for C9: the lone active season is deactivated even though the
update reports 404. -/
theorem C9_witness :
    (update_season "0123456789abcdef01234567" ⟨"t", none, none, none, true⟩
        ⟨[⟨⟨"aaaaaaaaaaaaaaaaaaaaaaaa"⟩, "s", none, none, none, true⟩], []⟩).1 =
      .error 404 "Season not found" ∧
    (update_season "0123456789abcdef01234567" ⟨"t", none, none, none, true⟩
        ⟨[⟨⟨"aaaaaaaaaaaaaaaaaaaaaaaa"⟩, "s", none, none, none, true⟩], []⟩).2.seasons =
      [⟨⟨"aaaaaaaaaaaaaaaaaaaaaaaa"⟩, "s", none, none, none, false⟩] := by
  have h := C9_update_miss_deactivates
    ⟨[⟨⟨"aaaaaaaaaaaaaaaaaaaaaaaa"⟩, "s", none, none, none, true⟩], []⟩
    "0123456789abcdef01234567" ⟨"0123456789abcdef01234567"⟩
    ⟨"t", none, none, none, true⟩ (by decide) (by decide)
    ⟨⟨⟨"aaaaaaaaaaaaaaaaaaaaaaaa"⟩, "s", none, none, none, true⟩, by simp, rfl⟩ rfl
  exact ⟨h.1, by rw [h.2.1]; rfl⟩

/-- C1: a Season Create or Update whose input is active restores the
at-most-one-active invariant: after a create, the active seasons are exactly
the created one; after a successful update, there is exactly one active
season and it carries the updated id — regardless of how many seasons were
active before. -/
theorem C1_single_active (p : SeasonIn) (st : Store) (newOid : ObjectId)
    (sid : String) (oid : ObjectId)
    (hp : p.is_active = true)
    (hparse : parseObjectId sid = some oid)
    (hexists : ∃ s ∈ st.seasons, s.oid = oid) :
    ((create_season p newOid st).2.seasons.filter fun s => s.is_active) =
      [mkSeasonDoc newOid p] ∧
    (update_season sid p st).1.isOk = true ∧
    ((update_season sid p st).2.seasons.filter fun s => s.is_active).length = 1 ∧
    ∀ s ∈ (update_season sid p st).2.seasons, s.is_active = true → s.oid = oid := by
  have hdeact :
      ∀ l : List SeasonDoc,
        (updateMany (fun _ => true) (fun s => { s with is_active := false })
            l).filter (fun s => s.is_active) = [] := by
    intro l
    rw [List.filter_eq_nil_iff]
    intro a ha
    simp [deactivateAll_all_inactive l a ha]
  constructor
  · simp only [create_season, hp, if_pos, create_document]
    rw [List.filter_append, hdeact]
    simp [mkSeasonDoc, hp]
  · have hmatch : ∃ x ∈ updateMany (fun _ => true)
        (fun s => { s with is_active := false }) st.seasons,
        (x.oid == oid) = true := by
      rcases hexists with ⟨s, hs, hoid⟩
      refine ⟨{ s with is_active := false }, List.mem_map.mpr ⟨s, hs, rfl⟩, ?_⟩
      simp [hoid]
    rcases findOneAndUpdate_first_match (fun s => s.oid == oid)
        (applySeasonSet p) _ hmatch with ⟨l1, d, l2, hsplit, hd, hl1, hres⟩
    have hrun : update_season sid p st =
        (.ok (applySeasonSet p d),
         { st with seasons := l1 ++ applySeasonSet p d :: l2 }) := by
      simp [update_season, hparse, hp, hres]
    have hinl : ∀ x, x ∈ l1 ∨ x ∈ l2 → x.is_active = false := by
      intro x hx
      have hxmem : x ∈ updateMany (fun _ => true)
          (fun s => { s with is_active := false }) st.seasons := by
        rw [hsplit]
        rcases hx with hx | hx
        · exact List.mem_append_left _ hx
        · exact List.mem_append_right _ (List.mem_cons_of_mem d hx)
      exact deactivateAll_all_inactive st.seasons x hxmem
    have hfl1 : l1.filter (fun s => s.is_active) = [] := by
      rw [List.filter_eq_nil_iff]
      intro a ha
      simp [hinl a (Or.inl ha)]
    have hfl2 : l2.filter (fun s => s.is_active) = [] := by
      rw [List.filter_eq_nil_iff]
      intro a ha
      simp [hinl a (Or.inr ha)]
    have hset_active : (applySeasonSet p d).is_active = true := hp
    refine ⟨by rw [hrun]; rfl, ?_, ?_⟩
    · rw [hrun]
      simp only [List.filter_append, List.filter_cons, hfl1, hfl2, hset_active]
      simp
    · intro s hs hact
      rw [hrun] at hs
      simp only at hs
      rcases List.mem_append.mp hs with hs | hs
      · exact absurd hact (by simp [hinl s (Or.inl hs)])
      · rcases List.mem_cons.mp hs with rfl | hs
        · simpa [applySeasonSet] using hd
        · exact absurd hact (by simp [hinl s (Or.inr hs)])

/-- Witness for C1: two previously active seasons, one of which is updated
to stay active; and a create on the same store. -/
theorem C1_witness :
    ((create_season ⟨"new", none, none, none, true⟩ ⟨"cccccccccccccccccccccccc"⟩
        ⟨[⟨⟨"aaaaaaaaaaaaaaaaaaaaaaaa"⟩, "s1", none, none, none, true⟩,
          ⟨⟨"bbbbbbbbbbbbbbbbbbbbbbbb"⟩, "s2", none, none, none, true⟩],
         []⟩).2.seasons.filter fun s => s.is_active) =
      [mkSeasonDoc ⟨"cccccccccccccccccccccccc"⟩ ⟨"new", none, none, none, true⟩] ∧
    (update_season "aaaaaaaaaaaaaaaaaaaaaaaa" ⟨"new", none, none, none, true⟩
        ⟨[⟨⟨"aaaaaaaaaaaaaaaaaaaaaaaa"⟩, "s1", none, none, none, true⟩,
          ⟨⟨"bbbbbbbbbbbbbbbbbbbbbbbb"⟩, "s2", none, none, none, true⟩],
         []⟩).1.isOk = true ∧
    ((update_season "aaaaaaaaaaaaaaaaaaaaaaaa" ⟨"new", none, none, none, true⟩
        ⟨[⟨⟨"aaaaaaaaaaaaaaaaaaaaaaaa"⟩, "s1", none, none, none, true⟩,
          ⟨⟨"bbbbbbbbbbbbbbbbbbbbbbbb"⟩, "s2", none, none, none, true⟩],
         []⟩).2.seasons.filter fun s => s.is_active).length = 1 := by
  have h := C1_single_active ⟨"new", none, none, none, true⟩
    ⟨[⟨⟨"aaaaaaaaaaaaaaaaaaaaaaaa"⟩, "s1", none, none, none, true⟩,
      ⟨⟨"bbbbbbbbbbbbbbbbbbbbbbbb"⟩, "s2", none, none, none, true⟩],
     []⟩
    ⟨"cccccccccccccccccccccccc"⟩ "aaaaaaaaaaaaaaaaaaaaaaaa"
    ⟨"aaaaaaaaaaaaaaaaaaaaaaaa"⟩ rfl (by decide)
    ⟨⟨⟨"aaaaaaaaaaaaaaaaaaaaaaaa"⟩, "s1", none, none, none, true⟩, by simp, rfl⟩
  exact ⟨h.1, h.2.1, h.2.2.1⟩

/-- C6: a Season Create or Update whose input is inactive never touches the
other seasons: a create only appends the new document, and an update changes
at most the single matched document, leaving every other season — and in
particular its `is_active` value — exactly as it was. -/
theorem C6_inactive_frame (p : SeasonIn) (st : Store) (hp : p.is_active = false) :
    (∀ newOid, (create_season p newOid st).2.seasons =
      st.seasons ++ [mkSeasonDoc newOid p]) ∧
    ∀ sid, (update_season sid p st).2.seasons = st.seasons ∨
      ∃ l1 d l2, st.seasons = l1 ++ d :: l2 ∧
        (update_season sid p st).2.seasons = l1 ++ applySeasonSet p d :: l2 := by
  constructor
  · intro newOid
    simp [create_season, hp, create_document]
  · intro sid
    match hpar : parseObjectId sid with
    | none =>
        left
        simp [update_season, hpar]
    | some oid =>
        by_cases hm : ∃ x ∈ st.seasons, (x.oid == oid) = true
        · right
          rcases findOneAndUpdate_first_match (fun s => s.oid == oid)
              (applySeasonSet p) st.seasons hm with ⟨l1, d, l2, hsplit, hd, hl1, hres⟩
          refine ⟨l1, d, l2, hsplit, ?_⟩
          simp only [update_season, hpar, hp]
          rw [if_neg (by simp)]
          rw [hres]
        · left
          have hall : ∀ x ∈ st.seasons, (fun s : SeasonDoc => s.oid == oid) x = false := by
            intro x hx
            by_contra hc
            exact hm ⟨x, hx, by simpa using hc⟩
          have hres := findOneAndUpdate_no_match (fun s : SeasonDoc => s.oid == oid)
            (applySeasonSet p) st.seasons hall
          simp only [update_season, hpar, hp]
          rw [if_neg (by simp)]
          rw [hres]

/-- Witness for C6: creating an inactive season next to an active one leaves
the active one untouched. -/
theorem C6_witness :
    (create_season ⟨"new", none, none, none, false⟩ ⟨"cccccccccccccccccccccccc"⟩
        ⟨[⟨⟨"aaaaaaaaaaaaaaaaaaaaaaaa"⟩, "s1", none, none, none, true⟩], []⟩).2.seasons =
      [⟨⟨"aaaaaaaaaaaaaaaaaaaaaaaa"⟩, "s1", none, none, none, true⟩] ++
        [mkSeasonDoc ⟨"cccccccccccccccccccccccc"⟩ ⟨"new", none, none, none, false⟩] :=
  (C6_inactive_frame ⟨"new", none, none, none, false⟩
    ⟨[⟨⟨"aaaaaaaaaaaaaaaaaaaaaaaa"⟩, "s1", none, none, none, true⟩], []⟩ rfl).1
    ⟨"cccccccccccccccccccccccc"⟩

/-- C2: deleting a stored season S succeeds, removes exactly S from the
season collection, and rewrites the episode collection by setting
`season_id` to null on precisely the episodes whose `season_id` equals the
string form of S's id — deleting no episode and changing no other field. -/
theorem C2_delete_season_orphans (S : SeasonDoc) (st : Store)
    (hmem : S ∈ st.seasons)
    (hcanon : parseObjectId S.oid.repr = some S.oid)
    (hnodup : (st.seasons.map fun s => s.oid).Nodup) :
    (delete_season S.oid.repr st).1 = .ok "ok" ∧
    (∃ l1 l2, st.seasons = l1 ++ S :: l2 ∧
      (delete_season S.oid.repr st).2.seasons = l1 ++ l2 ∧
      ∀ T ∈ l1, T.oid ≠ S.oid) ∧
    (delete_season S.oid.repr st).2.episodes =
      (st.episodes.map fun e =>
        if e.season_id == some S.oid.repr then { e with season_id := none }
        else e) := by
  have hmatch : ∃ x ∈ st.seasons, (x.oid == S.oid) = true :=
    ⟨S, hmem, by simp⟩
  rcases deleteOne_first_match (fun s => s.oid == S.oid) st.seasons hmatch with
    ⟨l1, d, l2, hsplit, hd, hl1, hres⟩
  have hdS : d.oid = S.oid := by simpa using hd
  have hSd : S = d := by
    rw [hsplit] at hmem
    rcases List.mem_append.mp hmem with hS1 | hS2
    · exact absurd (hl1 S hS1) (by simp)
    · rcases List.mem_cons.mp hS2 with h | hS2
      · exact h
      · exfalso
        rw [hsplit] at hnodup
        have hdup : d.oid ∉ l2.map fun s => s.oid := by
          have h2 := (List.nodup_append.mp (by simpa using hnodup)).2.1
          exact (List.nodup_cons.mp h2).1
        exact hdup (by
          rw [hdS]
          exact List.mem_map.mpr ⟨S, hS2, rfl⟩)
  have hrun : delete_season S.oid.repr st =
      (.ok "ok",
       ⟨l1 ++ l2,
        updateMany (fun e => e.season_id == some S.oid.repr)
          (fun e => { e with season_id := none }) st.episodes⟩) := by
    simp [delete_season, hcanon, hres]
  refine ⟨by rw [hrun], ⟨l1, l2, ?_, by rw [hrun], ?_⟩, by rw [hrun]; rfl⟩
  · rw [hsplit, hSd]
  · intro T hT
    have := hl1 T hT
    simpa using this

/-- Witness for C2: deleting the only season orphans the episode that
referenced it and leaves the unrelated episode alone. -/
theorem C2_witness :
    (delete_season "aaaaaaaaaaaaaaaaaaaaaaaa"
        ⟨[⟨⟨"aaaaaaaaaaaaaaaaaaaaaaaa"⟩, "s1", none, none, none, true⟩],
         [⟨⟨"bbbbbbbbbbbbbbbbbbbbbbbb"⟩, "e1", ⟨2024, 1, 1⟩, 7, [],
           some "aaaaaaaaaaaaaaaaaaaaaaaa"⟩,
          ⟨⟨"cccccccccccccccccccccccc"⟩, "e2", ⟨2024, 1, 2⟩, 3, [],
           some "dddddddddddddddddddddddd"⟩]⟩).1 = .ok "ok" ∧
    (delete_season "aaaaaaaaaaaaaaaaaaaaaaaa"
        ⟨[⟨⟨"aaaaaaaaaaaaaaaaaaaaaaaa"⟩, "s1", none, none, none, true⟩],
         [⟨⟨"bbbbbbbbbbbbbbbbbbbbbbbb"⟩, "e1", ⟨2024, 1, 1⟩, 7, [],
           some "aaaaaaaaaaaaaaaaaaaaaaaa"⟩,
          ⟨⟨"cccccccccccccccccccccccc"⟩, "e2", ⟨2024, 1, 2⟩, 3, [],
           some "dddddddddddddddddddddddd"⟩]⟩).2.episodes =
      [⟨⟨"bbbbbbbbbbbbbbbbbbbbbbbb"⟩, "e1", ⟨2024, 1, 1⟩, 7, [], none⟩,
       ⟨⟨"cccccccccccccccccccccccc"⟩, "e2", ⟨2024, 1, 2⟩, 3, [],
        some "dddddddddddddddddddddddd"⟩] := by
  have h := C2_delete_season_orphans
    ⟨⟨"aaaaaaaaaaaaaaaaaaaaaaaa"⟩, "s1", none, none, none, true⟩
    ⟨[⟨⟨"aaaaaaaaaaaaaaaaaaaaaaaa"⟩, "s1", none, none, none, true⟩],
     [⟨⟨"bbbbbbbbbbbbbbbbbbbbbbbb"⟩, "e1", ⟨2024, 1, 1⟩, 7, [],
       some "aaaaaaaaaaaaaaaaaaaaaaaa"⟩,
      ⟨⟨"cccccccccccccccccccccccc"⟩, "e2", ⟨2024, 1, 2⟩, 3, [],
       some "dddddddddddddddddddddddd"⟩]⟩
    (by simp) (by decide) (by decide)
  exact ⟨h.1, by rw [h.2.2]; decide⟩

end LifeStory
